import Mathlib

/-!
Verification of the PCA9634 Arduino driver (RobTillaart/PCA9634, v0.2.6),
an 8-channel I2C LED driver wrapper.

The repository provides the header `src/PCA9634.h` (register map, error
codes, mode bits, declarations).  The implementation file `PCA9634.cpp`
holding the member-function bodies is not part of the sources available
here, so the operation bodies are modelled from the specification
(`spec.md`, section 4.1 "Register Interface" and section 7), while all
numeric constants come directly from the header.

The device plus its two-wire bus are embedded as a pure state machine:
an ideal always-acknowledging bus, a register file `Nat -> Nat` (byte
values, indexed by the chip register address 0x00..0x11), the handle's
last-error field, and a log of the bus transactions performed.  The chip
decodes the register byte sent on the bus by its low five bits; a set
0x80 bit enables auto-increment, so consecutive data bytes land in
consecutive registers (header comment at `PCA9634_PWM`, issue #9).
-/

set_option maxRecDepth 100000
set_option maxHeartbeats 1000000

namespace PCA9634Spec

/-! ### Constants from src/PCA9634.h -/

def PCA9634_MODE1 : Nat := 0x00
def PCA9634_MODE2 : Nat := 0x01

/-- Register byte used for the PWM register of channel `x`:
0x80 auto-increment bit plus the PWM register offset `0x02 + x`. -/
def PCA9634_PWM (x : Nat) : Nat := 0x82 + x

def PCA9634_GRPPWM : Nat := 0x0A
def PCA9634_GRPFREQ : Nat := 0x0B

def PCA9634_LEDOUT_BASE : Nat := 0x0C
def PCA9634_LEDOFF : Nat := 0x00
def PCA9634_LEDON : Nat := 0x01
def PCA9634_LEDPWM : Nat := 0x02
def PCA9634_LEDGRPPWM : Nat := 0x03

def PCA9634_OK : Nat := 0x00
def PCA9634_ERROR : Nat := 0xFF
def PCA9634_ERR_WRITE : Nat := 0xFE
def PCA9634_ERR_CHAN : Nat := 0xFD
def PCA9634_ERR_MODE : Nat := 0xFC
def PCA9634_ERR_REG : Nat := 0xFB
def PCA9634_ERR_I2C : Nat := 0xFA

def PCA9634_MODE1_SLEEP : Nat := 0x10
def PCA9634_MODE1_SUB1 : Nat := 0x08
def PCA9634_MODE1_SUB2 : Nat := 0x04
def PCA9634_MODE1_SUB3 : Nat := 0x02
def PCA9634_MODE1_ALLCALL : Nat := 0x01

/-- Fixed channel count of the PCA9634 (`_channelCount = 8` in the header). -/
def channelCount : Nat := 8

/-! ### Bus and device state -/

/-- One two-wire bus transaction, as seen on the bus after the device
address byte: the register byte sent, then the data bytes (empty for a
pure read probe).  `stop` records whether the transaction was closed
with a stop condition (`writeN` vs `writeN_noStop`). -/
inductive Txn where
  | wr (regByte : Nat) (data : List Nat) (stop : Bool)
  | rd (regByte : Nat)
deriving DecidableEq, Repr

/-- Device handle plus chip state: register file (byte values indexed by
chip register address), the handle's `_error` field, and the log of bus
transactions performed so far (oldest first). -/
structure Device where
  regs : Nat → Nat
  error : Nat
  log : List Txn

/-- A fresh device: all chip registers zero, no error, empty bus log. -/
def initDevice : Device :=
  { regs := fun _ => 0, error := PCA9634_OK, log := [] }

/-- Store byte `v` into register `r` (values are truncated to a byte,
as the chip registers are 8 bit wide). -/
def updateReg (regs : Nat → Nat) (r v : Nat) : Nat → Nat :=
  fun i => if i = r then v % 256 else regs i

/-- Auto-increment write: store the data bytes into consecutive
registers starting at `r`. -/
def writeSeq : (Nat → Nat) → Nat → List Nat → (Nat → Nat)
  | regs, _, [] => regs
  | regs, r, v :: rest => writeSeq (updateReg regs r v) (r + 1) rest

/-- One bus write transaction: the chip decodes the register address
from the low five bits of the register byte; if the 0x80 auto-increment
bit is set the data bytes go to consecutive registers, otherwise every
data byte targets the same register. -/
def busWrite (d : Device) (regByte : Nat) (data : List Nat) (stop : Bool) : Device :=
  let r := regByte % 32
  let regs2 :=
    if 0x80 ≤ regByte then writeSeq d.regs r data
    else data.foldl (fun rs v => updateReg rs r v) d.regs
  { d with regs := regs2, log := d.log ++ [Txn.wr regByte data stop] }

/-! ### Private direct-control primitives

Modelled from the spec: the bodies of `PCA9634::writeReg` and
`PCA9634::readReg` live in the missing `PCA9634.cpp`.  Spec, section
4.1: "Every register write follows: address the device, send register
offset, send value, release bus; failure at any stage sets the error
code and returns an error status without retry."  On the ideal bus no
stage fails, so a register write is one single-byte transaction
returning OK. -/

/-- Modelled from the spec: `PCA9634::writeReg(reg, value)` from the
missing `PCA9634.cpp` — one single-byte register write transaction,
returning the OK status on the ideal bus. -/
def writeReg (d : Device) (reg value : Nat) : Device × Nat :=
  (busWrite d reg [value] true, PCA9634_OK)

/-- Modelled from the spec: `PCA9634::readReg(reg)` from the missing
`PCA9634.cpp` — one register read transaction returning the register's
current byte. -/
def readReg (d : Device) (reg : Nat) : Device × Nat :=
  ({ d with log := d.log ++ [Txn.rd reg] }, d.regs (reg % 32))

/-! ### Configuration operations -/

/-- Modelled from the spec: `PCA9634::setLedDriverMode(channel, mode)`
from the missing `PCA9634.cpp`.  Spec 4.1: "read-modify-write of the
2-bit field (off/on/pwm/group-pwm) for the given channel within its
packed output-mode register; fails with 'bad channel' if channel ≥
channel count, 'bad mode' if mode > 3."  Four channels are packed per
`LEDOUT` register, 2 bits each (spec section 3, header line 28). -/
def setLedDriverMode (d : Device) (channel mode : Nat) : Device × Nat :=
  if channelCount ≤ channel then
    ({ d with error := PCA9634_ERR_CHAN }, PCA9634_ERR_CHAN)
  else if 3 < mode then
    ({ d with error := PCA9634_ERR_MODE }, PCA9634_ERR_MODE)
  else
    let reg := PCA9634_LEDOUT_BASE + channel / 4
    let shift := (channel % 4) * 2
    let r1 := readReg d reg
    let newVal := (r1.2 &&& (255 ^^^ (3 <<< shift))) ||| (mode <<< shift)
    ((writeReg r1.1 reg newVal).1, PCA9634_OK)

/-- Modelled from the spec: `PCA9634::getLedDriverMode(channel)` from
the missing `PCA9634.cpp` — reads the packed output-mode register and
extracts the channel's 2-bit field; fails with the bad-channel code if
channel ≥ channel count. -/
def getLedDriverMode (d : Device) (channel : Nat) : Device × Nat :=
  if channelCount ≤ channel then
    ({ d with error := PCA9634_ERR_CHAN }, PCA9634_ERR_CHAN)
  else
    let reg := PCA9634_LEDOUT_BASE + channel / 4
    let shift := (channel % 4) * 2
    let r1 := readReg d reg
    (r1.1, (r1.2 >>> shift) &&& 3)

/-- Modelled from the spec: `PCA9634::writeMode(reg, value)` from the
missing `PCA9634.cpp`.  Spec 4.1: "direct single-byte write ... to
mode1 or mode2; fails with a 'bad register' code if reg is not 0 or 1." -/
def writeMode (d : Device) (reg value : Nat) : Device × Nat :=
  if reg = PCA9634_MODE1 ∨ reg = PCA9634_MODE2 then
    writeReg d reg value
  else
    ({ d with error := PCA9634_ERR_REG }, PCA9634_ERR_REG)

/-- Modelled from the spec: `PCA9634::readMode(reg)` from the missing
`PCA9634.cpp` — direct single-byte read of mode1 or mode2, bad-register
error otherwise. -/
def readMode (d : Device) (reg : Nat) : Device × Nat :=
  if reg = PCA9634_MODE1 ∨ reg = PCA9634_MODE2 then
    readReg d reg
  else
    ({ d with error := PCA9634_ERR_REG }, PCA9634_ERR_REG)

/-- Convenience wrapper from the header (line 104):
`setMode1(value) { return writeMode(PCA9634_MODE1, value); }`. -/
def setMode1 (d : Device) (value : Nat) : Device × Nat :=
  writeMode d PCA9634_MODE1 value

/-- Convenience wrapper from the header (line 105):
`setMode2(value) { return writeMode(PCA9634_MODE2, value); }`. -/
def setMode2 (d : Device) (value : Nat) : Device × Nat :=
  writeMode d PCA9634_MODE2 value

/-- Convenience wrapper from the header (line 106):
`getMode1() { return readMode(PCA9634_MODE1); }`. -/
def getMode1 (d : Device) : Device × Nat :=
  readMode d PCA9634_MODE1

/-- Convenience wrapper from the header (line 107):
`getMode2() { return readMode(PCA9634_MODE2); }`. -/
def getMode2 (d : Device) : Device × Nat :=
  readMode d PCA9634_MODE2

/-! ### PWM write operations -/

/-- Modelled from the spec: `PCA9634::writeN_noStop(channel, arr,
count)` from the missing `PCA9634.cpp`.  Spec 4.1: "generic multi-byte
consecutive PWM write ... without releasing the bus between transaction
phases; fails if channel+count exceeds channel count."  The buffer is
a list and `count` is its length; the register byte sent is
`PCA9634_PWM(channel) = 0x82 + channel` (header line 22). -/
def writeN_noStop (d : Device) (channel : Nat) (arr : List Nat) : Device × Nat :=
  if channelCount < channel + arr.length then
    ({ d with error := PCA9634_ERR_CHAN }, PCA9634_ERR_CHAN)
  else
    (busWrite d (PCA9634_PWM channel) arr false, PCA9634_OK)

/-- Modelled from the spec: `PCA9634::writeN(channel, arr, count)` from
the missing `PCA9634.cpp` — like `writeN_noStop` but the transaction is
closed with a stop condition. -/
def writeN (d : Device) (channel : Nat) (arr : List Nat) : Device × Nat :=
  if channelCount < channel + arr.length then
    ({ d with error := PCA9634_ERR_CHAN }, PCA9634_ERR_CHAN)
  else
    (busWrite d (PCA9634_PWM channel) arr true, PCA9634_OK)

/-- Modelled from the spec: `PCA9634::write1(channel, value)` from the
missing `PCA9634.cpp` — "single PWM register write for one channel",
the one-byte instance of the generic consecutive write. -/
def write1 (d : Device) (channel value : Nat) : Device × Nat :=
  writeN d channel [value]

/-- Modelled from the spec: `PCA9634::write3(channel, R, G, B)` from
the missing `PCA9634.cpp` — "three consecutive PWM register writes
starting at channel's register, using one multi-byte transaction with
auto-increment addressing". -/
def write3 (d : Device) (channel r g b : Nat) : Device × Nat :=
  writeN d channel [r, g, b]

/-! ### Sub-call bits and error accessor -/

/-- The mode1 bit mask for sub-address `nr` (header lines 49..51):
nr = 1 ↦ 0x08, nr = 2 ↦ 0x04, nr = 3 ↦ 0x02. -/
def subCallMask (nr : Nat) : Nat :=
  if nr = 1 then PCA9634_MODE1_SUB1
  else if nr = 2 then PCA9634_MODE1_SUB2
  else PCA9634_MODE1_SUB3

/-- Modelled from the spec: `PCA9634::enableSubCall(nr)` from the
missing `PCA9634.cpp` — sets the corresponding mode1 sub-address-enable
bit via read-modify-write; `nr` must be in {1, 2, 3}. -/
def enableSubCall (d : Device) (nr : Nat) : Device × Bool :=
  if nr = 0 ∨ 3 < nr then (d, false)
  else
    let r1 := readMode d PCA9634_MODE1
    ((writeMode r1.1 PCA9634_MODE1 (r1.2 ||| subCallMask nr)).1, true)

/-- Modelled from the spec: `PCA9634::disableSubCall(nr)` from the
missing `PCA9634.cpp` — clears the corresponding mode1 bit via
read-modify-write; `nr` must be in {1, 2, 3}. -/
def disableSubCall (d : Device) (nr : Nat) : Device × Bool :=
  if nr = 0 ∨ 3 < nr then (d, false)
  else
    let r1 := readMode d PCA9634_MODE1
    ((writeMode r1.1 PCA9634_MODE1 (r1.2 &&& (255 ^^^ subCallMask nr))).1, true)

/-- Modelled from the spec: `PCA9634::isEnabledSubCall(nr)` from the
missing `PCA9634.cpp` — reads mode1 and reports whether the
corresponding sub-address-enable bit is currently set. -/
def isEnabledSubCall (d : Device) (nr : Nat) : Device × Bool :=
  if nr = 0 ∨ 3 < nr then (d, false)
  else
    let r1 := readMode d PCA9634_MODE1
    (r1.1, r1.2 &&& subCallMask nr != 0)

/-- Modelled from the spec: `PCA9634::lastError()` from the missing
`PCA9634.cpp` — "returns and clears the most recent error code"
(header line 142: "note error flag is reset after read!"). -/
def lastError (d : Device) : Device × Nat :=
  ({ d with error := PCA9634_OK }, d.error)

/-! ### Claim theorems -/

/-- C1 (amended): for every channel ≥ 8, `setLedDriverMode`,
`getLedDriverMode`, `write1` and `write3` return the bad-channel code
`PCA9634_ERR_CHAN` (0xFD) and perform no bus transaction, leaving the
chip registers and the bus log unchanged; `writeN` and `writeN_noStop`
do so whenever the buffer is nonempty.  (Their guard is
channel + count > 8, so channel = 8 with count = 0 is accepted.) -/
theorem badChannel_rejected (d : Device) (ch m v r g b : Nat) (arr : List Nat)
    (hch : 8 ≤ ch) :
    setLedDriverMode d ch m = ({ d with error := PCA9634_ERR_CHAN }, PCA9634_ERR_CHAN) ∧
    getLedDriverMode d ch = ({ d with error := PCA9634_ERR_CHAN }, PCA9634_ERR_CHAN) ∧
    write1 d ch v = ({ d with error := PCA9634_ERR_CHAN }, PCA9634_ERR_CHAN) ∧
    write3 d ch r g b = ({ d with error := PCA9634_ERR_CHAN }, PCA9634_ERR_CHAN) ∧
    (arr ≠ [] →
      writeN d ch arr = ({ d with error := PCA9634_ERR_CHAN }, PCA9634_ERR_CHAN)) ∧
    (arr ≠ [] →
      writeN_noStop d ch arr = ({ d with error := PCA9634_ERR_CHAN }, PCA9634_ERR_CHAN)) := by
  refine ⟨?_, ?_, ?_, ?_, ?_, ?_⟩
  · unfold setLedDriverMode
    rw [if_pos (by simp only [channelCount]; omega)]
  · unfold getLedDriverMode
    rw [if_pos (by simp only [channelCount]; omega)]
  · unfold write1 writeN
    rw [if_pos (by simp only [channelCount, List.length]; omega)]
  · unfold write3 writeN
    rw [if_pos (by simp only [channelCount, List.length]; omega)]
  · intro ha
    have hl : 0 < arr.length := List.length_pos.mpr ha
    unfold writeN
    rw [if_pos (by simp only [channelCount]; omega)]
  · intro ha
    have hl : 0 < arr.length := List.length_pos.mpr ha
    unfold writeN_noStop
    rw [if_pos (by simp only [channelCount]; omega)]

/-- C1 witness: channel 9 is rejected by `write1` with the bad-channel
code and an untouched device. -/
theorem badChannel_rejected_witness :
    8 ≤ 9 ∧
    write1 initDevice 9 5 = ({ initDevice with error := PCA9634_ERR_CHAN }, PCA9634_ERR_CHAN) :=
  ⟨by decide, (badChannel_rejected initDevice 9 0 5 0 0 0 [1] (by decide)).2.2.1⟩

/-- C1 counterexample: `writeN` at channel 8 with count 0 (empty buffer)
returns OK — not the bad-channel code — and issues one bus transaction,
so not every channel-indexed operation rejects every channel ≥ 8. -/
theorem badChannel_counterexample :
    (writeN initDevice 8 []).2 = PCA9634_OK ∧
    PCA9634_OK ≠ PCA9634_ERR_CHAN ∧
    (writeN initDevice 8 []).1.log = [Txn.wr 0x8A [] true] :=
  ⟨rfl, by decide, rfl⟩

/-- C2: for a valid channel (< 8) and any mode > 3, `setLedDriverMode`
returns the bad-mode code `PCA9634_ERR_MODE` (0xFC) and performs no bus
write: chip registers and bus log are unchanged, only the handle's
error field is set. -/
theorem setLedDriverMode_badMode (d : Device) (ch m : Nat)
    (hch : ch < 8) (hm : 3 < m) :
    setLedDriverMode d ch m = ({ d with error := PCA9634_ERR_MODE }, PCA9634_ERR_MODE) := by
  unfold setLedDriverMode
  rw [if_neg (by simp only [channelCount]; omega), if_pos hm]

/-- C2 witness: mode 4 on channel 0 is rejected with the bad-mode code. -/
theorem setLedDriverMode_badMode_witness :
    (0 < 8 ∧ 3 < 4) ∧
    setLedDriverMode initDevice 0 4 = ({ initDevice with error := PCA9634_ERR_MODE }, PCA9634_ERR_MODE) :=
  ⟨by decide, setLedDriverMode_badMode initDevice 0 4 (by decide) (by decide)⟩

/-- C5: for a register argument other than 0 (mode1) and 1 (mode2),
`writeMode` and `readMode` fail with the bad-register code
`PCA9634_ERR_REG` (0xFB) without touching the chip or the bus; for
register 0 or 1 they are exactly the direct single-byte register
write/read primitives. -/
theorem modeReg_guard (d : Device) (r v : Nat) :
    (¬(r = 0 ∨ r = 1) →
      writeMode d r v = ({ d with error := PCA9634_ERR_REG }, PCA9634_ERR_REG) ∧
      readMode d r = ({ d with error := PCA9634_ERR_REG }, PCA9634_ERR_REG)) ∧
    ((r = 0 ∨ r = 1) →
      writeMode d r v = writeReg d r v ∧ readMode d r = readReg d r) := by
  constructor
  · intro h
    constructor
    · unfold writeMode
      rw [if_neg (by simpa only [PCA9634_MODE1, PCA9634_MODE2] using h)]
    · unfold readMode
      rw [if_neg (by simpa only [PCA9634_MODE1, PCA9634_MODE2] using h)]
  · intro h
    constructor
    · unfold writeMode
      rw [if_pos (by simpa only [PCA9634_MODE1, PCA9634_MODE2] using h)]
    · unfold readMode
      rw [if_pos (by simpa only [PCA9634_MODE1, PCA9634_MODE2] using h)]

/-- C5 witness: register 5 is rejected by `writeMode` with the
bad-register code and an untouched device, and register 0 goes through
to the direct write. -/
theorem modeReg_guard_witness :
    writeMode initDevice 5 7 = ({ initDevice with error := PCA9634_ERR_REG }, PCA9634_ERR_REG) ∧
    writeMode initDevice 0 7 = writeReg initDevice 0 7 :=
  ⟨((modeReg_guard initDevice 5 7).1 (by decide)).1,
   ((modeReg_guard initDevice 0 7).2 (Or.inl rfl)).1⟩

/-- C8: `lastError` returns the error code stored in the handle and
resets it to OK, so a second call with no failing operation in between
returns `PCA9634_OK`; and each failing operation (bad channel, bad
mode, bad register, bad channel range) stores its error code in the
handle. -/
theorem lastError_spec (d : Device) (ch m r v : Nat) (arr : List Nat) :
    (lastError d).2 = d.error ∧
    (lastError d).1.error = PCA9634_OK ∧
    (lastError (lastError d).1).2 = PCA9634_OK ∧
    (8 ≤ ch → (setLedDriverMode d ch m).1.error = PCA9634_ERR_CHAN) ∧
    (ch < 8 → 3 < m → (setLedDriverMode d ch m).1.error = PCA9634_ERR_MODE) ∧
    (¬(r = 0 ∨ r = 1) → (writeMode d r v).1.error = PCA9634_ERR_REG) ∧
    (8 < ch + arr.length → (writeN d ch arr).1.error = PCA9634_ERR_CHAN) := by
  refine ⟨rfl, rfl, rfl, ?_, ?_, ?_, ?_⟩
  · intro h
    unfold setLedDriverMode
    rw [if_pos (by simp only [channelCount]; omega)]
  · intro h1 h2
    unfold setLedDriverMode
    rw [if_neg (by simp only [channelCount]; omega), if_pos h2]
  · intro h
    unfold writeMode
    rw [if_neg (by simpa only [PCA9634_MODE1, PCA9634_MODE2] using h)]
  · intro h
    unfold writeN
    rw [if_pos (by simp only [channelCount]; omega)]

/-- C8 witness: after a bad-channel failure the handle holds 0xFD,
`lastError` reports it and a second `lastError` reports OK. -/
theorem lastError_spec_witness :
    (lastError (setLedDriverMode initDevice 8 0).1).2 = PCA9634_ERR_CHAN ∧
    (lastError (lastError (setLedDriverMode initDevice 8 0).1).1).2 = PCA9634_OK := by
  have h := lastError_spec (setLedDriverMode initDevice 8 0).1 0 0 0 0 []
  exact ⟨h.1.trans (by decide), h.2.2.1⟩

/-- C9: the convenience wrappers of the header are definitionally the
generic mode-register operations: `setMode1 v = writeMode 0x00 v`,
`setMode2 v = writeMode 0x01 v`, `getMode1 = readMode 0x00`,
`getMode2 = readMode 0x01`, in return value and device effect alike. -/
theorem modeWrappers_refine (d : Device) (v : Nat) :
    setMode1 d v = writeMode d 0x00 v ∧
    setMode2 d v = writeMode d 0x01 v ∧
    getMode1 d = readMode d 0x00 ∧
    getMode2 d = readMode d 0x01 :=
  ⟨rfl, rfl, rfl, rfl⟩

/-- C3: a successful `write1 c v` (channel < 8, byte value) stores `v`
in channel `c`'s PWM register `0x02 + c`, so a subsequent register read
of that PWM register returns `v`. -/
theorem write1_roundtrip (d : Device) (c v : Nat) (hc : c < 8) (hv : v < 256) :
    (write1 d c v).2 = PCA9634_OK ∧
    (readReg (write1 d c v).1 (0x02 + c)).2 = v := by
  constructor
  · interval_cases c <;> rfl
  · interval_cases c <;>
      simp [write1, writeN, readReg, busWrite, writeSeq, updateReg,
        channelCount, PCA9634_PWM] <;>
      omega

/-- C3 witness: writing 200 to channel 5 and reading back register 0x07
returns 200. -/
theorem write1_roundtrip_witness :
    (5 < 8 ∧ 200 < 256) ∧
    (readReg (write1 initDevice 5 200).1 (0x02 + 5)).2 = 200 :=
  ⟨by decide, (write1_roundtrip initDevice 5 200 (by decide) (by decide)).2⟩

/-- Registers below the write window of an auto-increment burst, or at
or above its end, are untouched. -/
theorem writeSeq_out (data : List Nat) (regs : Nat → Nat) (r j : Nat)
    (hj : j < r ∨ r + data.length ≤ j) :
    writeSeq regs r data j = regs j := by
  induction data generalizing regs r with
  | nil => rfl
  | cons v rest ih =>
      simp only [List.length_cons] at hj
      show writeSeq (updateReg regs r v) (r + 1) rest j = regs j
      rw [ih _ _ (by omega)]
      simp only [updateReg]
      rw [if_neg (by omega)]

/-- Each register inside the write window of an auto-increment burst
holds the corresponding data byte. -/
theorem writeSeq_at (data : List Nat) (regs : Nat → Nat) (r i : Nat)
    (hi : i < data.length) :
    writeSeq regs r data (r + i) = data.getD i 0 % 256 := by
  induction data generalizing regs r i with
  | nil => simp at hi
  | cons v rest ih =>
      cases i with
      | zero =>
          show writeSeq (updateReg regs r v) (r + 1) rest (r + 0) = _
          rw [writeSeq_out rest _ _ _ (by omega)]
          simp [updateReg]
      | succ n =>
          show writeSeq (updateReg regs r v) (r + 1) rest (r + (n + 1)) = _
          have harg : r + (n + 1) = (r + 1) + n := by omega
          rw [harg, ih _ _ _ (by simpa using hi)]
          simp

/-- C6: `writeN` and `writeN_noStop` fail with the bad-channel code and
leave the device untouched whenever channel + count exceeds 8;
otherwise they succeed and write the `count` buffer bytes into the
`count` consecutive PWM registers starting at channel's register
`0x02 + channel`, leaving every other register unchanged, with the same
register effect for both variants. -/
theorem writeN_spec (d : Device) (c : Nat) (arr : List Nat) :
    (8 < c + arr.length →
      writeN d c arr = ({ d with error := PCA9634_ERR_CHAN }, PCA9634_ERR_CHAN) ∧
      writeN_noStop d c arr = ({ d with error := PCA9634_ERR_CHAN }, PCA9634_ERR_CHAN)) ∧
    (c + arr.length ≤ 8 →
      (writeN d c arr).2 = PCA9634_OK ∧
      (writeN_noStop d c arr).2 = PCA9634_OK ∧
      (∀ i, i < arr.length →
        (writeN d c arr).1.regs (0x02 + c + i) = arr.getD i 0 % 256) ∧
      (∀ j, j < 0x02 + c ∨ 0x02 + c + arr.length ≤ j →
        (writeN d c arr).1.regs j = d.regs j) ∧
      (writeN_noStop d c arr).1.regs = (writeN d c arr).1.regs) := by
  constructor
  · intro h
    have hg : channelCount < c + arr.length := by simp only [channelCount]; omega
    constructor
    · unfold writeN; rw [if_pos hg]
    · unfold writeN_noStop; rw [if_pos hg]
  · intro h
    have hg : ¬ channelCount < c + arr.length := by simp only [channelCount]; omega
    have hmod : (0x82 + c) % 32 = 0x02 + c := by omega
    refine ⟨?_, ?_, ?_, ?_, ?_⟩
    · unfold writeN; rw [if_neg hg]
    · unfold writeN_noStop; rw [if_neg hg]
    · intro i hi
      unfold writeN
      rw [if_neg hg]
      show (busWrite d (PCA9634_PWM c) arr true).regs (0x02 + c + i) = arr.getD i 0 % 256
      unfold busWrite PCA9634_PWM
      simp only
      rw [if_pos (by omega), hmod]
      exact writeSeq_at arr d.regs (0x02 + c) i hi
    · intro j hj
      unfold writeN
      rw [if_neg hg]
      show (busWrite d (PCA9634_PWM c) arr true).regs j = d.regs j
      unfold busWrite PCA9634_PWM
      simp only
      rw [if_pos (by omega), hmod]
      exact writeSeq_out arr d.regs (0x02 + c) j hj
    · unfold writeN writeN_noStop
      rw [if_neg hg, if_neg hg]
      rfl

/-- C6 witness: writing [10, 20, 30] at channel 4 fills PWM registers
0x06, 0x07, 0x08 and leaves register 0x05 alone; channel 6 with count 3
is rejected. -/
theorem writeN_spec_witness :
    (4 + 3 ≤ 8 ∧ 8 < 6 + 3) ∧
    (writeN initDevice 4 [10, 20, 30]).1.regs (0x02 + 4 + 1) = 20 % 256 ∧
    (writeN initDevice 4 [10, 20, 30]).1.regs 0x05 = initDevice.regs 0x05 ∧
    writeN initDevice 6 [1, 2, 3] = ({ initDevice with error := PCA9634_ERR_CHAN }, PCA9634_ERR_CHAN) :=
  ⟨by decide,
   (((writeN_spec initDevice 4 [10, 20, 30]).2 (by decide)).2.2.1 1 (by decide)),
   (((writeN_spec initDevice 4 [10, 20, 30]).2 (by decide)).2.2.2.1 0x05 (by decide)),
   ((writeN_spec initDevice 6 [1, 2, 3]).1 (by decide)).1⟩

/-- C10: every successful per-channel PWM write sends the register byte
`0x82 + channel` on the bus: the auto-increment bit 0x80 is set and the
low bits are the PWM register offset `0x02 + channel`. -/
theorem pwm_register_byte (d : Device) (c v r g b : Nat) (arr : List Nat)
    (hc : c < 8) (hcnt : c + arr.length ≤ 8) :
    (writeN d c arr).1.log = d.log ++ [Txn.wr (0x82 + c) arr true] ∧
    (writeN_noStop d c arr).1.log = d.log ++ [Txn.wr (0x82 + c) arr false] ∧
    (write1 d c v).1.log = d.log ++ [Txn.wr (0x82 + c) [v] true] ∧
    (c + 3 ≤ 8 →
      (write3 d c r g b).1.log = d.log ++ [Txn.wr (0x82 + c) [r, g, b] true]) ∧
    (0x82 + c) &&& 0x80 = 0x80 ∧
    (0x82 + c) % 0x80 = 0x02 + c := by
  have hand : ∀ x, x < 8 → (0x82 + x) &&& 0x80 = 0x80 := by decide
  refine ⟨?_, ?_, ?_, ?_, hand c hc, by omega⟩
  · unfold writeN
    rw [if_neg (by simp only [channelCount]; omega)]
    rfl
  · unfold writeN_noStop
    rw [if_neg (by simp only [channelCount]; omega)]
    rfl
  · unfold write1 writeN
    rw [if_neg (by simp only [channelCount, List.length]; omega)]
    rfl
  · intro h3
    unfold write3 writeN
    rw [if_neg (by simp only [channelCount, List.length]; omega)]
    rfl

/-- C10 witness: `write1` on channel 6 logs a transaction with register
byte 0x88 = 0x82 + 6, which carries the 0x80 auto-increment bit. -/
theorem pwm_register_byte_witness :
    (6 < 8 ∧ 6 + 1 ≤ 8) ∧
    (write1 initDevice 6 99).1.log = initDevice.log ++ [Txn.wr (0x82 + 6) [99] true] ∧
    (0x82 + 6) &&& 0x80 = 0x80 :=
  ⟨by decide,
   (pwm_register_byte initDevice 6 99 0 0 0 [99] (by decide) (by decide)).2.2.1,
   (pwm_register_byte initDevice 6 99 0 0 0 [99] (by decide) (by decide)).2.2.2.2.1⟩

/-- Reading the output-mode value of a valid channel extracts its 2-bit
field from the packed `LEDOUT` register `0x0C + channel / 4`. -/
theorem getLedDriverMode_val (d : Device) (c : Nat) (hc : c < 8) :
    (getLedDriverMode d c).2 = (d.regs (0x0C + c / 4) >>> (c % 4 * 2)) &&& 3 := by
  unfold getLedDriverMode
  rw [if_neg (by simp only [channelCount]; omega)]
  show (d.regs ((PCA9634_LEDOUT_BASE + c / 4) % 32) >>> (c % 4 * 2)) &&& 3 = _
  rw [Nat.mod_eq_of_lt (by simp only [PCA9634_LEDOUT_BASE]; omega)]
  rfl

/-- A valid `setLedDriverMode` updates exactly the packed `LEDOUT`
register of the channel, clearing the channel's 2-bit field and
inserting the new mode there. -/
theorem setLedDriverMode_regs_at (d : Device) (c m k : Nat) (hc : c < 8) (hm : m ≤ 3) :
    (setLedDriverMode d c m).1.regs k =
      if k = 0x0C + c / 4 then
        ((d.regs (0x0C + c / 4) &&& (255 ^^^ (3 <<< (c % 4 * 2)))) ||| (m <<< (c % 4 * 2))) % 256
      else d.regs k := by
  have hmod : (PCA9634_LEDOUT_BASE + c / 4) % 32 = 0x0C + c / 4 := by
    simp only [PCA9634_LEDOUT_BASE]; omega
  unfold setLedDriverMode
  rw [if_neg (by simp only [channelCount]; omega), if_neg (by omega)]
  simp only [readReg, writeReg, busWrite, hmod, List.foldl]
  rw [if_neg (by simp only [PCA9634_LEDOUT_BASE]; omega)]
  simp only [updateReg, PCA9634_LEDOUT_BASE]

/-- Inserting a 2-bit mode into its field of a packed byte yields a
byte whose field reads back as that mode. -/
theorem ledout_set :
    ∀ cur, cur < 256 → ∀ m, m < 4 → ∀ i, i < 4 →
      ((cur &&& (255 ^^^ (3 <<< (i * 2)))) ||| (m <<< (i * 2))) < 256 ∧
      ((((cur &&& (255 ^^^ (3 <<< (i * 2)))) ||| (m <<< (i * 2))) >>> (i * 2)) &&& 3 = m) := by
  intro cur hcur m hm i hi
  have hpow : (2 : Nat) ^ (i * 2) ≤ 2 ^ 6 := Nat.pow_le_pow_right (by norm_num) (by omega)
  constructor
  · have h1 : cur &&& (255 ^^^ (3 <<< (i * 2))) < 256 := by
      have hxor : (255 : Nat) ^^^ (3 <<< (i * 2)) < 256 := by
        have hsh : (3 : Nat) <<< (i * 2) < 256 := by
          rw [Nat.shiftLeft_eq]
          have := Nat.mul_le_mul_left 3 hpow
          omega
        have := Nat.xor_lt_two_pow (x := 255) (y := 3 <<< (i * 2)) (n := 8)
          (by norm_num) (by simpa using hsh)
        simpa using this
      exact lt_of_le_of_lt Nat.and_le_right hxor
    have h2 : m <<< (i * 2) < 256 := by
      rw [Nat.shiftLeft_eq]
      have h4 : m * 2 ^ (i * 2) ≤ 3 * 2 ^ 6 := by
        calc m * 2 ^ (i * 2) ≤ 3 * 2 ^ (i * 2) := Nat.mul_le_mul_right _ (by omega)
          _ ≤ 3 * 2 ^ 6 := Nat.mul_le_mul_left 3 hpow
      omega
    have := Nat.or_lt_two_pow (n := 8) (by simpa using h1) (by simpa using h2)
    simpa using this
  · apply Nat.eq_of_testBit_eq
    intro k
    have h255 : (255 : Nat) = 2 ^ 8 - 1 := by norm_num
    have h3 : (3 : Nat) = 2 ^ 2 - 1 := by norm_num
    simp only [Nat.testBit_land, Nat.testBit_shiftRight, Nat.testBit_lor,
      Nat.testBit_xor, Nat.testBit_shiftLeft]
    rw [h255, h3]
    simp only [Nat.testBit_two_pow_sub_one, Nat.add_sub_cancel_left, ge_iff_le,
      Nat.le_add_right, decide_True, Bool.true_and, true_and]
    by_cases hk : k < 2
    · rw [decide_eq_true hk, decide_eq_true (show i * 2 + k < 8 by omega)]
      simp
    · rw [decide_eq_false hk]
      have hmk : m < 2 ^ k := by
        have h4 : (4 : Nat) ≤ 2 ^ k := by
          calc (4 : Nat) = 2 ^ 2 := by norm_num
            _ ≤ 2 ^ k := Nat.pow_le_pow_right (by norm_num) (by omega)
        omega
      simp [Nat.testBit_lt_two_pow hmk]

/-- Inserting a 2-bit mode into field `i` of a packed byte leaves every
other 2-bit field `j` unchanged. -/
theorem ledout_other :
    ∀ cur, cur < 256 → ∀ m, m < 4 → ∀ i, i < 4 → ∀ j, j < 4 →
      i = j ∨
        ((((cur &&& (255 ^^^ (3 <<< (i * 2)))) ||| (m <<< (i * 2))) >>> (j * 2)) &&& 3
          = (cur >>> (j * 2)) &&& 3) := by
  intro cur hcur m hm i hi j hj
  by_cases hij : i = j
  · exact Or.inl hij
  right
  apply Nat.eq_of_testBit_eq
  intro k
  have h255 : (255 : Nat) = 2 ^ 8 - 1 := by norm_num
  have h3 : (3 : Nat) = 2 ^ 2 - 1 := by norm_num
  simp only [Nat.testBit_land, Nat.testBit_shiftRight, Nat.testBit_lor,
    Nat.testBit_xor, Nat.testBit_shiftLeft]
  rw [h255, h3]
  simp only [Nat.testBit_two_pow_sub_one, ge_iff_le]
  by_cases hk : k < 2
  · rcases (show j * 2 + 2 ≤ i * 2 ∨ i * 2 + 2 ≤ j * 2 by omega) with hd | hd
    · rw [decide_eq_false (show ¬ (i * 2 ≤ j * 2 + k) by omega),
          decide_eq_true (show j * 2 + k < 8 by omega)]
      simp
    · have hmk : m.testBit (j * 2 + k - i * 2) = false := by
        apply Nat.testBit_lt_two_pow
        have h4 : (4 : Nat) ≤ 2 ^ (j * 2 + k - i * 2) := by
          calc (4 : Nat) = 2 ^ 2 := by norm_num
            _ ≤ 2 ^ (j * 2 + k - i * 2) :=
              Nat.pow_le_pow_right (by norm_num) (by omega)
        omega
      rw [decide_eq_true (show i * 2 ≤ j * 2 + k by omega),
          decide_eq_false (show ¬ (j * 2 + k - i * 2 < 2) by omega),
          decide_eq_true (show j * 2 + k < 8 by omega), hmk]
      simp
  · rw [decide_eq_false hk]
    simp

/-- C4: for a byte-valued packed register, a valid channel `c < 8` and
mode `m ≤ 3`, `setLedDriverMode c m` succeeds, a following
`getLedDriverMode c` returns `m`, and the 2-bit fields of every other
channel sharing the same packed `LEDOUT` register byte read back
unchanged. -/
theorem setget_ledDriverMode (d : Device) (c m : Nat) (hc : c < 8) (hm : m ≤ 3)
    (hreg : d.regs (0x0C + c / 4) < 256) :
    (setLedDriverMode d c m).2 = PCA9634_OK ∧
    (getLedDriverMode (setLedDriverMode d c m).1 c).2 = m ∧
    (∀ c2, c2 < 8 → c2 ≠ c → c2 / 4 = c / 4 →
      (getLedDriverMode (setLedDriverMode d c m).1 c2).2 = (getLedDriverMode d c2).2) := by
  have hok : (setLedDriverMode d c m).2 = PCA9634_OK := by
    unfold setLedDriverMode
    rw [if_neg (by simp only [channelCount]; omega), if_neg (by omega)]
  have hset := ledout_set (d.regs (0x0C + c / 4)) hreg m (by omega) (c % 4) (by omega)
  refine ⟨hok, ?_, ?_⟩
  · rw [getLedDriverMode_val _ c hc, setLedDriverMode_regs_at d c m _ hc hm, if_pos rfl,
      Nat.mod_eq_of_lt hset.1]
    exact hset.2
  · intro c2 hc2 hne hdiv
    have hij : ¬ (c % 4 = c2 % 4) := by omega
    have hother := ledout_other (d.regs (0x0C + c / 4)) hreg m (by omega)
      (c % 4) (by omega) (c2 % 4) (by omega)
    rw [getLedDriverMode_val _ c2 hc2, setLedDriverMode_regs_at d c m _ hc hm,
      getLedDriverMode_val d c2 hc2, hdiv, if_pos rfl, Nat.mod_eq_of_lt hset.1]
    rcases hother with h | h
    · exact absurd h hij
    · exact h

/-- C4 witness: on a fresh device, setting channel 5 (register 0x0D,
field 1) to mode 2 reads back as 2 and leaves channel 6's field at 0. -/
theorem setget_ledDriverMode_witness :
    (5 < 8 ∧ 2 ≤ 3 ∧ initDevice.regs (0x0C + 5 / 4) < 256) ∧
    (getLedDriverMode (setLedDriverMode initDevice 5 2).1 5).2 = 2 ∧
    (getLedDriverMode (setLedDriverMode initDevice 5 2).1 6).2 = (getLedDriverMode initDevice 6).2 :=
  ⟨by decide,
   (setget_ledDriverMode initDevice 5 2 (by decide) (by decide) (by decide)).2.1,
   (setget_ledDriverMode initDevice 5 2 (by decide) (by decide) (by decide)).2.2 6
     (by decide) (by decide) (by decide)⟩

/-- Setting a single bit `2 ^ b` of a byte-truncated value makes that
bit read back set; clearing it makes it read back clear. -/
theorem single_bit_set_clear (v b : Nat) (hb : b < 8) :
    ((v ||| 2 ^ b) % 256) &&& 2 ^ b = 2 ^ b ∧
    ((v &&& (255 ^^^ 2 ^ b)) % 256) &&& 2 ^ b = 0 := by
  have h256 : (256 : Nat) = 2 ^ 8 := by norm_num
  have h255 : (255 : Nat) = 2 ^ 8 - 1 := by norm_num
  constructor
  · rw [Nat.and_two_pow, h256, Nat.testBit_mod_two_pow, Nat.testBit_lor,
        Nat.testBit_two_pow_self, decide_eq_true hb]
    simp
  · rw [Nat.and_two_pow, h256, Nat.testBit_mod_two_pow, Nat.testBit_land,
        h255, Nat.testBit_xor, Nat.testBit_two_pow_sub_one, Nat.testBit_two_pow_self,
        decide_eq_true hb]
    simp

/-- Setting a mode1 sub-call bit makes it read back set; clearing it
makes it read back clear (byte arithmetic for all byte values and all
three sub-call numbers). -/
theorem mode1_subcall_bits :
    ∀ v, v < 256 → ∀ nr, nr < 4 → 1 ≤ nr →
      ((v ||| subCallMask nr) % 256) &&& subCallMask nr = subCallMask nr ∧
      ((v &&& (255 ^^^ subCallMask nr)) % 256) &&& subCallMask nr = 0 := by
  intro v hv nr h4 h1
  interval_cases nr
  · simpa [subCallMask, PCA9634_MODE1_SUB1] using single_bit_set_clear v 3 (by norm_num)
  · simpa [subCallMask, PCA9634_MODE1_SUB2] using single_bit_set_clear v 2 (by norm_num)
  · simpa [subCallMask, PCA9634_MODE1_SUB3] using single_bit_set_clear v 1 (by norm_num)

/-- C7: for nr in {1, 2, 3} and a byte-valued mode1 register,
`enableSubCall nr` succeeds and sets the corresponding mode1 bit,
`disableSubCall nr` succeeds and clears it, `isEnabledSubCall nr`
reports exactly whether that bit is currently set in mode1 (true after
an enable, false after a disable), and the bits are nr = 1 ↦ 0x08,
nr = 2 ↦ 0x04, nr = 3 ↦ 0x02. -/
theorem subCall_bits (d : Device) (nr : Nat) (h1 : 1 ≤ nr) (h3 : nr ≤ 3)
    (hm : d.regs 0x00 < 256) :
    (enableSubCall d nr).2 = true ∧
    ((enableSubCall d nr).1.regs 0x00) &&& subCallMask nr = subCallMask nr ∧
    (disableSubCall d nr).2 = true ∧
    ((disableSubCall d nr).1.regs 0x00) &&& subCallMask nr = 0 ∧
    ((isEnabledSubCall d nr).2 = (d.regs 0x00 &&& subCallMask nr != 0)) ∧
    (isEnabledSubCall (enableSubCall d nr).1 nr).2 = true ∧
    (isEnabledSubCall (disableSubCall d nr).1 nr).2 = false ∧
    subCallMask 1 = 0x08 ∧ subCallMask 2 = 0x04 ∧ subCallMask 3 = 0x02 := by
  have hb := mode1_subcall_bits (d.regs 0) hm nr (by omega) h1
  interval_cases nr
  · refine ⟨rfl, hb.1, rfl, hb.2, rfl, ?_, ?_, rfl, rfl, rfl⟩
    · show ((((d.regs 0 ||| subCallMask 1) % 256) &&& subCallMask 1) != 0) = true
      rw [hb.1]
      rfl
    · show ((((d.regs 0 &&& (255 ^^^ subCallMask 1)) % 256) &&& subCallMask 1) != 0) = false
      rw [hb.2]
      rfl
  · refine ⟨rfl, hb.1, rfl, hb.2, rfl, ?_, ?_, rfl, rfl, rfl⟩
    · show ((((d.regs 0 ||| subCallMask 2) % 256) &&& subCallMask 2) != 0) = true
      rw [hb.1]
      rfl
    · show ((((d.regs 0 &&& (255 ^^^ subCallMask 2)) % 256) &&& subCallMask 2) != 0) = false
      rw [hb.2]
      rfl
  · refine ⟨rfl, hb.1, rfl, hb.2, rfl, ?_, ?_, rfl, rfl, rfl⟩
    · show ((((d.regs 0 ||| subCallMask 3) % 256) &&& subCallMask 3) != 0) = true
      rw [hb.1]
      rfl
    · show ((((d.regs 0 &&& (255 ^^^ subCallMask 3)) % 256) &&& subCallMask 3) != 0) = false
      rw [hb.2]
      rfl

/-- C7 witness: on a fresh device, enabling sub-call 2 makes
`isEnabledSubCall 2` true and disabling it makes it false. -/
theorem subCall_bits_witness :
    (1 ≤ 2 ∧ 2 ≤ 3 ∧ initDevice.regs 0x00 < 256) ∧
    (isEnabledSubCall (enableSubCall initDevice 2).1 2).2 = true ∧
    (isEnabledSubCall (disableSubCall initDevice 2).1 2).2 = false :=
  ⟨by decide,
   (subCall_bits initDevice 2 (by decide) (by decide) (by decide)).2.2.2.2.2.1,
   (subCall_bits initDevice 2 (by decide) (by decide) (by decide)).2.2.2.2.2.2.1⟩

end PCA9634Spec
